import Mathlib

/-!
Verification of the CarTrackerBot tracking and notification engine.

This file gives a shallow embedding of the engine's data model and
operations (bot/database/models.py, bot/handlers/update_handlers.py,
bot/handlers/summary_handlers.py, bot/jobs/scheduler.py, bot/config.py)
and proves or refutes the specified properties about them.

Conventions of the embedding:
- calendar dates are modelled as integers (a linear day count); Python's
  date subtraction, timedelta addition and SQLite's julianday difference
  and date(x, '+n days') all become integer subtraction and addition;
- SQL rows become structures, tables become lists of rows, and queries
  become list filters / maps over those lists;
- nullable columns become Option fields;
- machine integers are unbounded (Python ints are arbitrary precision).
-/

namespace CarTracker

/-! ### Configuration (bot/config.py, class Rewards defaults)

The reward parameters are carried in a structure mirroring
config.rewards; field defaults are the defaults from the source. -/

structure Rewards where
  referral_bonus : Int := 250
  add_car : Int := 100
  fill_profile : Int := 500
  mileage_allowance_per_day : Int := 1000
  km_per_nut : Int := 10
deriving DecidableEq

def rewards_defaults : Rewards := {}

/-! ### Mileage allowance calculator
(bot/handlers/update_handlers.py, process_mileage_update, lines 60-85)

The computational core of the handler: given the car's stored state
(old mileage, current allowance, date of the last allowance update),
today's date and the reported new mileage, it accrues the daily
allowance, computes the rewardable distance, the nuts actually
persisted as a reward transaction, and the remaining allowance. -/

structure MileageUpdateOutcome where
  new_mileage : Int
  mileage_added : Int
  rewardable_km : Int
  nuts_awarded : Int
  remaining_allowance : Int
deriving DecidableEq

def accrue_allowance (rw : Rewards) (current_allowance days_passed : Int) : Int :=
  if 0 < days_passed then current_allowance + days_passed * rw.mileage_allowance_per_day
  else current_allowance

def process_mileage_update (rw : Rewards)
    (old_mileage current_allowance last_update_day today new_mileage : Int) :
    MileageUpdateOutcome :=
  let days_passed := today - last_update_day
  let allowance := accrue_allowance rw current_allowance days_passed
  let mileage_added := new_mileage - old_mileage
  let rewardable_km := min mileage_added allowance
  let nuts_awarded :=
    if 0 < rewardable_km ∧ 0 < rw.km_per_nut then
      let n := Int.fdiv rewardable_km rw.km_per_nut
      if 0 < n then n else 0
    else 0
  { new_mileage := new_mileage
    mileage_added := mileage_added
    rewardable_km := rewardable_km
    nuts_awarded := nuts_awarded
    remaining_allowance := allowance - rewardable_km }

theorem process_mileage_update_remaining (rw : Rewards)
    (old ca last today new : Int) :
    (process_mileage_update rw old ca last today new).remaining_allowance
      = accrue_allowance rw ca (today - last)
          - min (new - old) (accrue_allowance rw ca (today - last)) := rfl

theorem process_mileage_update_nuts (rw : Rewards)
    (old ca last today new : Int) :
    (process_mileage_update rw old ca last today new).nuts_awarded
      = (if 0 < min (new - old) (accrue_allowance rw ca (today - last)) ∧ 0 < rw.km_per_nut
          then
            if 0 < Int.fdiv (min (new - old) (accrue_allowance rw ca (today - last))) rw.km_per_nut
            then Int.fdiv (min (new - old) (accrue_allowance rw ca (today - last))) rw.km_per_nut
            else 0
          else 0) := rfl

/-- Claim C9: for every mileage report (any old odometer value, any new
odometer value, any non-negative starting allowance and elapsed days),
the resulting remaining allowance is never below 0 and the awarded
points are never negative.  (In fact the remaining allowance is
non-negative without any hypothesis, since it is
allowance − min(mileage_added, allowance).) -/
theorem mileage_update_allowance_nonneg (rw : Rewards)
    (old ca last today new : Int) (hca : 0 ≤ ca) (hdays : 0 ≤ today - last) :
    0 ≤ (process_mileage_update rw old ca last today new).remaining_allowance ∧
    0 ≤ (process_mileage_update rw old ca last today new).nuts_awarded := by
  constructor
  · rw [process_mileage_update_remaining]
    exact sub_nonneg.mpr (min_le_right _ _)
  · rw [process_mileage_update_nuts]
    split
    · split
      · next h => exact le_of_lt h
      · exact le_refl 0
    · exact le_refl 0

theorem mileage_update_allowance_nonneg_witness :
    0 ≤ (process_mileage_update rewards_defaults 10000 1000 0 3 10300).remaining_allowance ∧
    0 ≤ (process_mileage_update rewards_defaults 10000 1000 0 3 10300).nuts_awarded :=
  mileage_update_allowance_nonneg rewards_defaults 10000 1000 0 3 10300
    (by decide) (by decide)

/-- Claim C1 (counterexample): the code computes
mileage_added = new_mileage − old_mileage with no clamp.  With
old_mileage = 100, new_mileage = 50, allowance 0 and 0 elapsed days,
mileage_added is −50 while max(0, 50 − 100) = 0, and the remaining
allowance becomes 50 instead of 0: the allowance is changed by a
negative rewardable amount. -/
theorem mileage_added_not_clamped_cex :
    (process_mileage_update rewards_defaults 100 0 0 0 50).mileage_added = -50 ∧
    (process_mileage_update rewards_defaults 100 0 0 0 50).mileage_added ≠ max 0 (50 - 100) ∧
    (process_mileage_update rewards_defaults 100 0 0 0 50).remaining_allowance = 50 := by
  decide

/-- Claim C1 (amended): mileage_added equals new_mileage − old_mileage
with no clamping; whenever new_mileage < old_mileage and the accrued
allowance is non-negative, the negative delta is selected as the
rewardable amount and the persisted remaining allowance exceeds the
accrued allowance by old_mileage − new_mileage. -/
theorem mileage_added_unclamped (rw : Rewards)
    (old ca last today new : Int)
    (hlt : new < old) (hacc : 0 ≤ accrue_allowance rw ca (today - last)) :
    (process_mileage_update rw old ca last today new).mileage_added = new - old ∧
    (process_mileage_update rw old ca last today new).remaining_allowance
      = accrue_allowance rw ca (today - last) + (old - new) := by
  refine ⟨rfl, ?_⟩
  rw [process_mileage_update_remaining]
  have hmin : min (new - old) (accrue_allowance rw ca (today - last)) = new - old :=
    min_eq_left (le_trans (by omega) hacc)
  omega

theorem mileage_added_unclamped_witness :
    (process_mileage_update rewards_defaults 100 0 0 0 50).mileage_added = 50 - 100 ∧
    (process_mileage_update rewards_defaults 100 0 0 0 50).remaining_allowance
      = accrue_allowance rewards_defaults 0 (0 - 0) + (100 - 50) :=
  mileage_added_unclamped rewards_defaults 100 0 0 0 50 (by decide) (by decide)

/-! ### Data model rows
(bot/database/database.py table shapes, bot/database/models.py row access)

users: user_id, balance_nuts (default 0), active_car_id (nullable),
mileage_reminder_period (default 1).
cars: car_id, user_id, name, mileage (nullable), last_mileage_update_at,
mileage_allowance (default 1000), last_allowance_update_at.
reminders: reminder_id, car_id, name, type discriminator, nullable
kind-specific columns, is_repeating (default FALSE),
notification_schedule (nullable TEXT). -/

structure UserRow where
  user_id : Nat
  balance_nuts : Int := 0
  active_car_id : Option Nat := none
  mileage_reminder_period : Int := 1
deriving DecidableEq

structure CarRow where
  car_id : Nat
  user_id : Nat
  name : String
  mileage : Option Int := none
  last_mileage_update_at : Int := 0
  mileage_allowance : Int := 1000
  last_allowance_update_at : Int := 0
deriving DecidableEq

structure ReminderRow where
  reminder_id : Nat
  car_id : Nat
  name : String
  type : String
  interval_km : Option Int := none
  last_reset_mileage : Option Int := none
  interval_days : Option Int := none
  last_reset_date : Option Int := none
  target_mileage : Option Int := none
  target_date : Option Int := none
  is_repeating : Bool := false
  notification_schedule : Option String := none
deriving DecidableEq

/-! ### Notification schedule parsing
(bot/jobs/scheduler.py line 29:
notification_days = [int(d) for d in schedule.split(',') if d.isdigit()])

Python's str.split(',') is modelled directly on the character list
(String.splitOn does not reduce in the kernel); str.isdigit() is true
iff the piece is non-empty and all characters are digits. -/

def splitCommaAux : List Char → List Char → List (List Char)
  | [], acc => [acc.reverse]
  | c :: cs, acc =>
      if c = ',' then acc.reverse :: splitCommaAux cs []
      else splitCommaAux cs (c :: acc)

def pyIsDigit (piece : List Char) : Bool := !piece.isEmpty && piece.all Char.isDigit

def digitsToNat (piece : List Char) : Nat :=
  piece.foldl (fun acc c => acc * 10 + (c.toNat - Char.toNat '0')) 0

def parse_notification_days (s : String) : List Int :=
  ((splitCommaAux s.data []).filter pyIsDigit).map (fun d => Int.ofNat (digitsToNat d))

/-! ### Reminder creation (models.py, Reminder.add_reminder, lines 375-387)

The INSERT always supplies the literal "7,3,1" for the
notification_schedule column, whatever the reminder type; is_repeating
is not supplied and takes its schema default FALSE.  reminder_id is the
autoincrement key chosen by the database, passed here as a parameter. -/

def add_reminder (reminder_id car_id : Nat) (name type : String)
    (interval_km last_reset_mileage : Option Int := none)
    (interval_days : Option Int := none) (last_reset_date : Option Int := none)
    (target_mileage target_date : Option Int := none) : ReminderRow :=
  { reminder_id := reminder_id
    car_id := car_id
    name := name
    type := type
    interval_km := interval_km
    last_reset_mileage := last_reset_mileage
    interval_days := interval_days
    last_reset_date := last_reset_date
    target_mileage := target_mileage
    target_date := target_date
    is_repeating := false
    notification_schedule := some "7,3,1" }

/-- Claim C10: every tracking created through add_reminder, regardless of
its kind string, is persisted with notification_schedule "7,3,1", which
parses to the three-threshold set [7, 3, 1]. -/
theorem add_reminder_default_schedule (reminder_id car_id : Nat) (name type : String)
    (ikm lrm idays lrd tm td : Option Int) :
    (add_reminder reminder_id car_id name type ikm lrm idays lrd tm td).notification_schedule
        = some "7,3,1" ∧
    parse_notification_days "7,3,1" = [7, 3, 1] :=
  ⟨rfl, by decide⟩

/-! ### Reset / advance of a time reminder
(models.py, Reminder.reset_time_reminder, lines 439-454)

With repeat=True the SQL sets
last_reset_date = date(last_reset_date, '+' || interval_days || ' days')
guarded by last_reset_date IS NOT NULL AND interval_days IS NOT NULL;
with repeat=False it overwrites last_reset_date with the given start
date.  Only the last_reset_date column is written in either branch. -/

def reset_time_reminder (r : ReminderRow) (start_date : Int) (repeat_flag : Bool) :
    ReminderRow :=
  if repeat_flag then
    match r.last_reset_date, r.interval_days with
    | some d, some n => { r with last_reset_date := some (d + n) }
    | _, _ => r
  else
    { r with last_reset_date := some start_date }

theorem reset_time_reminder_schedule_unchanged (r : ReminderRow) (s : Int) (b : Bool) :
    (reset_time_reminder r s b).notification_schedule = r.notification_schedule := by
  unfold reset_time_reminder
  split
  · split <;> rfl
  · rfl

/-- Claim C6: for every repeating TimeBased tracking that is due, the
advance operation (reset_time_reminder with repeat=True) sets
last_reset_date to the old last_reset_date plus exactly interval_days,
not to today's date. -/
theorem advance_shifts_anchor_by_interval (r : ReminderRow) (d n start today : Int)
    (htype : r.type = "time") (hrep : r.is_repeating = true)
    (hd : r.last_reset_date = some d) (hn : r.interval_days = some n)
    (hdue : d + n - today ≤ 0) :
    (reset_time_reminder r start true).last_reset_date = some (d + n) := by
  unfold reset_time_reminder
  rw [if_pos rfl, hd, hn]

theorem advance_shifts_anchor_by_interval_witness :
    (reset_time_reminder
        { reminder_id := 1, car_id := 1, name := "oil", type := "time",
          interval_days := some 30, last_reset_date := some 0, is_repeating := true,
          notification_schedule := some "7,3,1" } 40 true).last_reset_date
      = some (0 + 30) :=
  advance_shifts_anchor_by_interval
    { reminder_id := 1, car_id := 1, name := "oil", type := "time",
      interval_days := some 30, last_reset_date := some 0, is_repeating := true,
      notification_schedule := some "7,3,1" }
    0 30 40 40 rfl rfl rfl rfl (by decide)

/-! ### Expired repeating reminder renewal
(models.py, Reminder.get_expired_repeating_reminders, lines 497-513 and
scheduler.py, check_expired_reminders, lines 67-82)

The query selects time reminders with is_repeating, non-null date and
interval, joined with their car, where today − last_reset_date ≥
interval_days.  For each, the job advances the anchor via
reset_time_reminder(id, "", repeat=True) and emits one renewal
notification.  No other column is written. -/

structure RenewalNotification where
  user_id : Nat
  car_name : String
  reminder_name : String
deriving DecidableEq

def expired_repeating_filter (today : Int) (r : ReminderRow) : Bool :=
  (r.type == "time") && r.is_repeating &&
    (match r.last_reset_date, r.interval_days with
     | some d, some n => decide (n ≤ today - d)
     | _, _ => false)

def get_expired_repeating_reminders (reminders : List ReminderRow) (cars : List CarRow)
    (today : Int) : List (ReminderRow × CarRow) :=
  (reminders.filter (expired_repeating_filter today)).filterMap
    (fun r => (cars.find? (fun c => c.car_id == r.car_id)).map (fun c => (r, c)))

def check_expired_reminders (reminders : List ReminderRow) (cars : List CarRow)
    (today : Int) : List ReminderRow × List RenewalNotification :=
  (reminders.map (fun r =>
      if expired_repeating_filter today r
          && (cars.find? (fun c => c.car_id == r.car_id)).isSome
      then reset_time_reminder r 0 true else r),
   (get_expired_repeating_reminders reminders cars today).map
      (fun rc => { user_id := rc.2.user_id, car_name := rc.2.name,
                   reminder_name := rc.1.name }))

/-- Claim C4 (counterexample): a repeating time reminder whose schedule
has been reduced to "3,1" (the creation default being "7,3,1") and which
is due (last_reset_date 0, interval 30, today 40) is renewed — the
anchor advances to 30 and a renewal notification is emitted — yet its
notification_schedule is still "3,1" afterwards: the renewal step does
not restore the original full configured set. -/
theorem renewal_schedule_not_restored_cex :
    ((check_expired_reminders
        [{ reminder_id := 1, car_id := 1, name := "oil", type := "time",
           interval_days := some 30, last_reset_date := some 0, is_repeating := true,
           notification_schedule := some "3,1" }]
        [{ car_id := 1, user_id := 5, name := "sedan" }] 40).fst.map
      (fun r => (r.notification_schedule, r.last_reset_date)))
      = [(some "3,1", some 30)] ∧
    (check_expired_reminders
        [{ reminder_id := 1, car_id := 1, name := "oil", type := "time",
           interval_days := some 30, last_reset_date := some 0, is_repeating := true,
           notification_schedule := some "3,1" }]
        [{ car_id := 1, user_id := 5, name := "sedan" }] 40).snd
      = [{ user_id := 5, car_name := "sedan", reminder_name := "oil" }] ∧
    (some "3,1" : Option String) ≠ some "7,3,1" := by
  decide

/-- Claim C4 (amended): the renewal step advances the anchor date of the
due repeating trackings and emits their renewal notifications, but
leaves every tracking's notification_schedule exactly as it was; in
particular no entry is ever added back to a schedule by the renewal
step. -/
theorem renewal_preserves_schedules (reminders : List ReminderRow) (cars : List CarRow)
    (today : Int) :
    ((check_expired_reminders reminders cars today).fst.map
        (fun r => r.notification_schedule))
      = reminders.map (fun r => r.notification_schedule) := by
  unfold check_expired_reminders
  rw [List.map_map]
  induction reminders with
  | nil => rfl
  | cons a rs ih =>
      rw [List.map_cons, List.map_cons, ih]
      congr 1
      simp only [Function.comp_apply]
      split
      · exact reset_time_reminder_schedule_unchanged a 0 true
      · rfl

/-! ### Mileage-reminder sweep query
(models.py, Car.get_cars_needing_mileage_update, lines 258-270)

SELECT u.user_id, c.name, c.car_id FROM cars c JOIN users u ON
c.user_id = u.user_id WHERE c.car_id = u.active_car_id AND c.mileage IS
NOT NULL AND julianday('now') - julianday(c.last_mileage_update_at) >= 7.

Note the hardcoded threshold 7: the users.mileage_reminder_period
column (schema default 1, user-settable via
User.set_mileage_reminder_period) is not consulted. -/

def mileage_sweep_row_selected (today : Int) (u : UserRow) (c : CarRow) : Bool :=
  (u.active_car_id == some c.car_id) && c.mileage.isSome
    && decide (7 ≤ today - c.last_mileage_update_at)

def get_cars_needing_mileage_update (users : List UserRow) (cars : List CarRow)
    (today : Int) : List (Nat × String × Nat) :=
  cars.filterMap (fun c =>
    match users.find? (fun u => u.user_id == c.user_id) with
    | some u =>
        if mileage_sweep_row_selected today u c then some (u.user_id, c.name, c.car_id)
        else none
    | none => none)

/-- Claim C3 (code evaluated at the failing input): an owner whose
mileage_reminder_period is the default 1 (indeed, any period p), with an
active car of known mileage last reported 3 days ago, is NOT selected by
the sweep — the query compares against the constant 7 and never reads
the period — while the same car is selected once 7 days have elapsed. -/
theorem mileage_sweep_ignores_reminder_period :
    (∀ p : Int, get_cars_needing_mileage_update
        [{ user_id := 5, active_car_id := some 1, mileage_reminder_period := p }]
        [{ car_id := 1, user_id := 5, name := "sedan", mileage := some 10000,
           last_mileage_update_at := 0 }] 3 = []) ∧
    get_cars_needing_mileage_update
        [{ user_id := 5, active_car_id := some 1, mileage_reminder_period := 1 }]
        [{ car_id := 1, user_id := 5, name := "sedan", mileage := some 10000,
           last_mileage_update_at := 0 }] 7 = [(5, "sedan", 1)] := by
  refine ⟨fun p => ?_, by decide⟩
  rfl

/-! ### Daily scheduler control flow
(scheduler.py, check_mileage_updates lines 46-65, daily_scheduler lines
85-96; main.py lines 51-52)

Control-flow skeleton as a step machine over program counters.
daily_scheduler sleeps 60 s, then in its while-True loop awaits
check_mileage_updates, then check_expired_reminders, then
check_time_based_notifications, then sleeps 24 h.  But
check_mileage_updates itself sleeps 60 s and enters its own while-True
loop of "sweep, sleep 24 h" with no break or return, so the await of it
never completes.  The states after that await exist in the program text
and are modelled, letting us prove they are unreachable. -/

inductive SchedAction where
  | sleep60
  | sleep86400
  | mileageSweep
  | renewalCheck
  | timeNotifCheck
deriving DecidableEq

inductive SchedPC where
  | dInit
  | dLoop
  | cInit
  | cLoop
  | cSleep
  | dAfterMileage
  | dAfterRenewal
  | dAfterNotif
deriving DecidableEq

def daily_scheduler_step : SchedPC → SchedPC × Option SchedAction
  | .dInit => (.dLoop, some .sleep60)
  | .dLoop => (.cInit, none)
  | .cInit => (.cLoop, some .sleep60)
  | .cLoop => (.cSleep, some .mileageSweep)
  | .cSleep => (.cLoop, some .sleep86400)
  | .dAfterMileage => (.dAfterRenewal, some .renewalCheck)
  | .dAfterRenewal => (.dAfterNotif, some .timeNotifCheck)
  | .dAfterNotif => (.dLoop, some .sleep86400)

def daily_scheduler_run : Nat → SchedPC
  | 0 => .dInit
  | n + 1 => (daily_scheduler_step (daily_scheduler_run n)).fst

def daily_scheduler_trace (n : Nat) : Option SchedAction :=
  (daily_scheduler_step (daily_scheduler_run n)).snd

theorem daily_scheduler_run_mem (n : Nat) :
    daily_scheduler_run n = .dInit ∨ daily_scheduler_run n = .dLoop ∨
    daily_scheduler_run n = .cInit ∨ daily_scheduler_run n = .cLoop ∨
    daily_scheduler_run n = .cSleep := by
  induction n with
  | zero => exact Or.inl rfl
  | succ m ih =>
      rcases ih with h | h | h | h | h <;>
        simp [daily_scheduler_run, h, daily_scheduler_step]

/-- Claim C2 (refuting evaluation): no step of daily_scheduler ever
performs the expired-repeating renewal check or the time-based
notification check: the await of check_mileage_updates, whose inner loop
has no exit, keeps the scheduler inside that callee forever, so the
other two daily jobs never run in any cycle. -/
theorem daily_scheduler_never_runs_other_jobs (n : Nat) :
    daily_scheduler_trace n ≠ some .renewalCheck ∧
    daily_scheduler_trace n ≠ some .timeNotifCheck := by
  unfold daily_scheduler_trace
  rcases daily_scheduler_run_mem n with h | h | h | h | h <;>
    rw [h] <;> exact ⟨by decide, by decide⟩

/-! ### Reward ledger
(models.py, Transaction.add_transaction lines 517-534,
Transaction.has_received_reward lines 537-545, User.update_balance;
bot/handlers/summary_handlers.py, _check_and_award_profile_completion)

State: the users table (cached balance_nuts per user) and the
append-only transactions table.  add_transaction returns immediately
when amount == 0; otherwise it inserts the row and increments the
matching user's cached balance inside one BEGIN/COMMIT, modelled as one
atomic state update.  The one-time-reward pattern checks
has_received_reward before granting, here with the amount and
description as parameters (the profile-completion caller passes
config.rewards.fill_profile and its fixed description string). -/

structure TransactionRow where
  user_id : Nat
  amount : Int
  description : String
deriving DecidableEq

structure LedgerState where
  users : List UserRow
  transactions : List TransactionRow
deriving DecidableEq

def add_transaction (s : LedgerState) (user_id : Nat) (amount : Int)
    (description : String) : LedgerState :=
  if amount = 0 then s
  else
    { users := s.users.map (fun u =>
        if u.user_id = user_id then { u with balance_nuts := u.balance_nuts + amount }
        else u)
      transactions := s.transactions ++ [⟨user_id, amount, description⟩] }

def has_received_reward (s : LedgerState) (user_id : Nat) (description : String) : Bool :=
  s.transactions.any (fun t => t.user_id == user_id && t.description == description)

def check_and_award (s : LedgerState) (user_id : Nat) (amount : Int)
    (description : String) : LedgerState :=
  if has_received_reward s user_id description then s
  else add_transaction s user_id amount description

def txn_count (s : LedgerState) (user_id : Nat) (description : String) : Nat :=
  s.transactions.countP (fun t => t.user_id == user_id && t.description == description)

def get_balance (s : LedgerState) (user_id : Nat) : Int :=
  match s.users.find? (fun u => u.user_id == user_id) with
  | some u => u.balance_nuts
  | none => 0

theorem find?_balance_map (l : List UserRow) (uid : Nat) (a : Int) :
    (l.map (fun u =>
        if u.user_id = uid then { u with balance_nuts := u.balance_nuts + a } else u)).find?
          (fun u => u.user_id == uid)
      = (l.find? (fun u => u.user_id == uid)).map
          (fun u => { u with balance_nuts := u.balance_nuts + a }) := by
  induction l with
  | nil => rfl
  | cons x xs ih =>
      by_cases hx : x.user_id = uid
      · simp [List.find?, hx]
      · have hb : (x.user_id == uid) = false := by simp [hx]
        simp [List.find?, hx, hb, ih]

theorem txn_count_zero_not_received (s : LedgerState) (uid : Nat) (d : String)
    (h : txn_count s uid d = 0) : has_received_reward s uid d = false := by
  rw [has_received_reward, List.any_eq_false]
  exact List.countP_eq_zero.mp h

/-- Claim C7: one-time reward granting is idempotent.  Starting from a
state with no transaction matching (owner, description), running the
gated check-then-grant sequence twice in a row with a non-zero reward
amount changes nothing on the second run, leaves exactly one matching
persisted transaction, and increments the owner's cached balance exactly
once. -/
theorem check_and_award_idempotent (s : LedgerState) (uid : Nat) (a : Int) (d : String)
    (u : UserRow)
    (h0 : txn_count s uid d = 0) (ha : a ≠ 0)
    (hu : s.users.find? (fun w => w.user_id == uid) = some u) :
    check_and_award (check_and_award s uid a d) uid a d = check_and_award s uid a d ∧
    txn_count (check_and_award (check_and_award s uid a d) uid a d) uid d = 1 ∧
    get_balance (check_and_award (check_and_award s uid a d) uid a d) uid
      = get_balance s uid + a := by
  have hfirst : check_and_award s uid a d = add_transaction s uid a d := by
    rw [check_and_award, txn_count_zero_not_received s uid d h0]
    rfl
  have hadd : add_transaction s uid a d =
      { users := s.users.map (fun w =>
          if w.user_id = uid then { w with balance_nuts := w.balance_nuts + a } else w)
        transactions := s.transactions ++ [⟨uid, a, d⟩] } := by
    rw [add_transaction, if_neg ha]
  have hrecv : has_received_reward (add_transaction s uid a d) uid d = true := by
    rw [hadd]
    simp [has_received_reward]
  have hsecond : check_and_award (add_transaction s uid a d) uid a d
      = add_transaction s uid a d := by
    rw [check_and_award, hrecv]
    rfl
  refine ⟨by rw [hfirst, hsecond], ?_, ?_⟩
  · rw [hfirst, hsecond, txn_count, hadd]
    simp only [List.countP_append]
    have h1 : List.countP
        (fun t => t.user_id == uid && t.description == d) [(⟨uid, a, d⟩ : TransactionRow)]
        = 1 := by simp [List.countP_cons]
    rw [txn_count] at h0
    rw [h0, h1]
  · rw [hfirst, hsecond, get_balance, hadd]
    simp only
    rw [find?_balance_map, hu, get_balance, hu]
    rfl

theorem check_and_award_idempotent_witness :
    check_and_award (check_and_award ⟨[{ user_id := 5 }], []⟩ 5 500 "fill_profile")
        5 500 "fill_profile"
      = check_and_award ⟨[{ user_id := 5 }], []⟩ 5 500 "fill_profile" ∧
    txn_count (check_and_award (check_and_award ⟨[{ user_id := 5 }], []⟩ 5 500 "fill_profile")
        5 500 "fill_profile") 5 "fill_profile" = 1 ∧
    get_balance (check_and_award (check_and_award ⟨[{ user_id := 5 }], []⟩ 5 500 "fill_profile")
        5 500 "fill_profile") 5
      = get_balance ⟨[{ user_id := 5 }], []⟩ 5 + 500 :=
  check_and_award_idempotent ⟨[{ user_id := 5 }], []⟩ 5 500 "fill_profile"
    { user_id := 5 } (by decide) (by decide) (by decide)

/-! The cached-balance invariant: every user row's balance_nuts equals
the sum of the amounts of that user's persisted transactions. -/

def txn_sum (transactions : List TransactionRow) (uid : Nat) : Int :=
  ((transactions.filter (fun t => t.user_id == uid)).map (fun t => t.amount)).sum

def balance_invariant (s : LedgerState) : Prop :=
  ∀ u ∈ s.users, u.balance_nuts = txn_sum s.transactions u.user_id

instance (s : LedgerState) : Decidable (balance_invariant s) :=
  inferInstanceAs (Decidable (∀ u ∈ s.users, u.balance_nuts = txn_sum s.transactions u.user_id))

theorem txn_sum_append_single (l : List TransactionRow) (uid tid : Nat) (a : Int)
    (d : String) :
    txn_sum (l ++ [⟨tid, a, d⟩]) uid
      = txn_sum l uid + (if tid = uid then a else 0) := by
  unfold txn_sum
  rw [List.filter_append]
  by_cases h : tid = uid
  · simp [List.filter, h]
  · have hb : (tid == uid) = false := by simp [h]
    simp [List.filter, h, hb]

/-- Claim C8: the cached balance always equals the sum of persisted
transaction amounts.  A grant with amount 0 persists nothing and changes
nothing; a grant with non-zero amount appends exactly one transaction
row and increments the matching cached balance in the same atomic state
update, and the invariant "balance_nuts = sum of own transaction
amounts" is preserved by every grant. -/
theorem add_transaction_preserves_invariant (s : LedgerState) (uid : Nat) (a : Int)
    (d : String) (hinv : balance_invariant s) :
    balance_invariant (add_transaction s uid a d) ∧
    add_transaction s uid 0 d = s ∧
    (a ≠ 0 → (add_transaction s uid a d).transactions
        = s.transactions ++ [⟨uid, a, d⟩]) := by
  refine ⟨?_, by rw [add_transaction, if_pos rfl], fun hne => by rw [add_transaction, if_neg hne]⟩
  by_cases ha : a = 0
  · rw [add_transaction, if_pos ha]
    exact hinv
  · rw [add_transaction, if_neg ha]
    intro u' hu'
    rcases List.mem_map.mp hu' with ⟨u, hu, hmap⟩
    by_cases huid : u.user_id = uid
    · rw [if_pos huid] at hmap
      rw [← hmap]
      simp only
      rw [txn_sum_append_single, if_pos huid.symm, hinv u hu]
    · rw [if_neg huid] at hmap
      rw [← hmap, txn_sum_append_single, if_neg (fun hh => huid hh.symm), hinv u hu]
      omega

theorem add_transaction_preserves_invariant_witness :
    balance_invariant (add_transaction ⟨[{ user_id := 5 }], []⟩ 5 7 "r") ∧
    add_transaction ⟨[{ user_id := 5 }], []⟩ 5 0 "r" = ⟨[{ user_id := 5 }], []⟩ ∧
    ((7 : Int) ≠ 0 → (add_transaction ⟨[{ user_id := 5 }], []⟩ 5 7 "r").transactions
        = [] ++ [⟨5, 7, "r"⟩]) :=
  add_transaction_preserves_invariant ⟨[{ user_id := 5 }], []⟩ 5 7 "r" (by decide)

/-! ### Time-based notification sweep
(models.py, Reminder.get_reminders_for_notification, lines 409-426 and
scheduler.py, check_time_based_notifications, lines 11-44)

The query selects time reminders with non-null last_reset_date,
interval_days and a non-null, non-empty notification_schedule, joined
with their car.  For each row the job computes
remaining_days = (last_reset_date + interval_days) − today and emits one
notification exactly when remaining_days is a member of the parsed
schedule.  The job performs no database write: the reminder table is
returned unchanged. -/

structure TimeNotification where
  user_id : Nat
  car_name : String
  reminder_name : String
  days_left : Int
  reminder_id : Nat
deriving DecidableEq

def notification_query_filter (r : ReminderRow) : Bool :=
  (r.type == "time") && r.last_reset_date.isSome && r.interval_days.isSome
    && r.notification_schedule.isSome && (r.notification_schedule != some "")

def get_reminders_for_notification (reminders : List ReminderRow) (cars : List CarRow) :
    List (ReminderRow × CarRow) :=
  (reminders.filter notification_query_filter).filterMap
    (fun r => (cars.find? (fun c => c.car_id == r.car_id)).map (fun c => (r, c)))

def notifications_for_row (today : Int) (rc : ReminderRow × CarRow) :
    List TimeNotification :=
  match rc.1.last_reset_date, rc.1.interval_days, rc.1.notification_schedule with
  | some d, some n, some sched =>
      if (d + n - today) ∈ parse_notification_days sched then
        [{ user_id := rc.2.user_id, car_name := rc.2.name, reminder_name := rc.1.name,
           days_left := d + n - today, reminder_id := rc.1.reminder_id }]
      else []
  | _, _, _ => []

def check_time_based_notifications (reminders : List ReminderRow) (cars : List CarRow)
    (today : Int) : List ReminderRow × List TimeNotification :=
  (reminders,
   (get_reminders_for_notification reminders cars).flatMap (notifications_for_row today))

theorem notifications_for_row_eq (today : Int) (r : ReminderRow) (c : CarRow)
    (d n : Int) (sched : String)
    (hd : r.last_reset_date = some d) (hn : r.interval_days = some n)
    (hs : r.notification_schedule = some sched) :
    notifications_for_row today (r, c)
      = if (d + n - today) ∈ parse_notification_days sched then
          [{ user_id := c.user_id, car_name := c.name, reminder_name := r.name,
             days_left := d + n - today, reminder_id := r.reminder_id }]
        else [] := by
  unfold notifications_for_row
  rw [hd, hn, hs]

theorem notifications_for_row_id (today : Int) (rc : ReminderRow × CarRow) :
    ∀ t ∈ notifications_for_row today rc, t.reminder_id = rc.1.reminder_id := by
  intro t ht
  unfold notifications_for_row at ht
  split at ht
  · split at ht
    · rw [List.mem_singleton.mp ht]
    · cases ht
  · cases ht

theorem emissions_cons (a : ReminderRow) (rs : List ReminderRow) (cars : List CarRow)
    (today : Int) :
    (check_time_based_notifications (a :: rs) cars today).snd
      = (if notification_query_filter a = true then
           (match cars.find? (fun c => c.car_id == a.car_id) with
            | some c => notifications_for_row today (a, c)
            | none => [])
         else [])
        ++ (check_time_based_notifications rs cars today).snd := by
  unfold check_time_based_notifications get_reminders_for_notification
  rw [List.filter_cons]
  by_cases hq : notification_query_filter a = true
  · rw [if_pos hq, if_pos hq, List.filterMap_cons]
    cases hf : cars.find? (fun c => c.car_id == a.car_id)
    · simp [hf]
    · simp [hf, List.flatMap_cons]
  · rw [if_neg hq, if_neg hq]
    simp

theorem emissions_ids (rs : List ReminderRow) (cars : List CarRow) (today : Int) :
    ∀ t ∈ (check_time_based_notifications rs cars today).snd,
      t.reminder_id ∈ rs.map ReminderRow.reminder_id := by
  induction rs with
  | nil => intro t ht; cases ht
  | cons a rs ih =>
      intro t ht
      rw [emissions_cons] at ht
      rw [List.map_cons]
      rcases List.mem_append.mp ht with h | h
      · split at h
        · split at h
          · exact List.mem_cons.mpr (Or.inl (notifications_for_row_id today _ t h))
          · cases h
        · cases h
      · exact List.mem_cons.mpr (Or.inr (ih t h))

theorem emissions_countP_zero (rs : List ReminderRow) (cars : List CarRow) (today : Int)
    (rid : Nat) (h : rid ∉ rs.map ReminderRow.reminder_id) :
    ((check_time_based_notifications rs cars today).snd.countP
        (fun t => t.reminder_id == rid)) = 0 := by
  rw [List.countP_eq_zero]
  intro t ht hbeq
  exact h ((beq_iff_eq.mp hbeq) ▸ emissions_ids rs cars today t ht)

theorem emissions_countP_eq (cars : List CarRow) (today : Int) (r : ReminderRow)
    (c : CarRow) (d n : Int) (sched : String)
    (hq : notification_query_filter r = true)
    (hd : r.last_reset_date = some d) (hn : r.interval_days = some n)
    (hs : r.notification_schedule = some sched)
    (hc : cars.find? (fun c0 => c0.car_id == r.car_id) = some c) :
    ∀ rs : List ReminderRow, r ∈ rs → (rs.map ReminderRow.reminder_id).Nodup →
      ((check_time_based_notifications rs cars today).snd.countP
          (fun t => t.reminder_id == r.reminder_id))
        = (if (d + n - today) ∈ parse_notification_days sched then 1 else 0) := by
  intro rs
  induction rs with
  | nil => intro h; cases h
  | cons a rs ih =>
      intro hr hnodup
      rw [List.map_cons, List.nodup_cons] at hnodup
      rw [emissions_cons, List.countP_append]
      rcases List.mem_cons.mp hr with heq | hmem
      · subst heq
        rw [if_pos hq]
        simp only [hc]
        rw [notifications_for_row_eq today r c d n sched hd hn hs,
            emissions_countP_zero rs cars today r.reminder_id hnodup.1]
        by_cases hm : (d + n - today) ∈ parse_notification_days sched
        · rw [if_pos hm, if_pos hm]
          simp [List.countP_cons]
        · rw [if_neg hm, if_neg hm]
          rfl
      · have hane : ¬(a.reminder_id = r.reminder_id) := by
          intro hh
          exact hnodup.1 (by
            rw [hh]
            exact List.mem_map_of_mem ReminderRow.reminder_id hmem)
        have hhead : ((if notification_query_filter a = true then
              (match cars.find? (fun c0 => c0.car_id == a.car_id) with
               | some c0 => notifications_for_row today (a, c0)
               | none => [])
            else []).countP (fun t => t.reminder_id == r.reminder_id)) = 0 := by
          rw [List.countP_eq_zero]
          intro t ht hbeq
          have hta : t.reminder_id = a.reminder_id := by
            split at ht
            · split at ht
              · exact notifications_for_row_id today _ t ht
              · cases ht
            · cases ht
          exact hane (hta.symm.trans (beq_iff_eq.mp hbeq))
        rw [hhead, Nat.zero_add]
        exact ih hmem hnodup.2

theorem emissions_mem_of (cars : List CarRow) (today : Int) (r : ReminderRow) (c : CarRow)
    (hq : notification_query_filter r = true)
    (hc : cars.find? (fun c0 => c0.car_id == r.car_id) = some c) :
    ∀ rs : List ReminderRow, r ∈ rs →
      ∀ t ∈ notifications_for_row today (r, c),
        t ∈ (check_time_based_notifications rs cars today).snd := by
  intro rs
  induction rs with
  | nil => intro h; cases h
  | cons a rs ih =>
      intro hr t ht
      rw [emissions_cons]
      rcases List.mem_cons.mp hr with heq | hmem
      · subst heq
        refine List.mem_append.mpr (Or.inl ?_)
        rw [if_pos hq, hc]
        exact ht
      · exact List.mem_append.mpr (Or.inr (ih hmem t ht))

/-- Claim C5: for every time reminder passing the notification query
(time kind, configured, non-empty schedule) whose car the join finds,
one pass of check_time_based_notifications emits exactly one
notification for that reminder when
remaining_days = (last_reset_date + interval_days) − today is a member
of the parsed schedule and none otherwise; the emitted notification
carries days_left = remaining_days; and the sweep returns the reminder
table unchanged (it performs no write). -/
theorem time_notification_iff_member (reminders : List ReminderRow) (cars : List CarRow)
    (today : Int) (r : ReminderRow) (c : CarRow) (d n : Int) (sched : String)
    (hr : r ∈ reminders)
    (hnodup : (reminders.map ReminderRow.reminder_id).Nodup)
    (hq : notification_query_filter r = true)
    (hd : r.last_reset_date = some d) (hn : r.interval_days = some n)
    (hs : r.notification_schedule = some sched)
    (hc : cars.find? (fun c0 => c0.car_id == r.car_id) = some c) :
    (check_time_based_notifications reminders cars today).fst = reminders ∧
    ((check_time_based_notifications reminders cars today).snd.countP
        (fun t => t.reminder_id == r.reminder_id))
      = (if (d + n - today) ∈ parse_notification_days sched then 1 else 0) ∧
    ((d + n - today) ∈ parse_notification_days sched →
      ({ user_id := c.user_id, car_name := c.name, reminder_name := r.name,
         days_left := d + n - today, reminder_id := r.reminder_id } : TimeNotification)
        ∈ (check_time_based_notifications reminders cars today).snd) := by
  refine ⟨rfl, emissions_countP_eq cars today r c d n sched hq hd hn hs hc reminders hr hnodup,
    fun hm => ?_⟩
  refine emissions_mem_of cars today r c hq hc reminders hr _ ?_
  rw [notifications_for_row_eq today r c d n sched hd hn hs, if_pos hm]
  exact List.mem_singleton.mpr rfl

theorem time_notification_iff_member_witness :
    (check_time_based_notifications
        [{ reminder_id := 1, car_id := 1, name := "insurance", type := "time",
           interval_days := some 30, last_reset_date := some 0,
           notification_schedule := some "7,3,1" }]
        [{ car_id := 1, user_id := 5, name := "sedan" }] 23).fst
      = [{ reminder_id := 1, car_id := 1, name := "insurance", type := "time",
           interval_days := some 30, last_reset_date := some 0,
           notification_schedule := some "7,3,1" }] ∧
    ((check_time_based_notifications
        [{ reminder_id := 1, car_id := 1, name := "insurance", type := "time",
           interval_days := some 30, last_reset_date := some 0,
           notification_schedule := some "7,3,1" }]
        [{ car_id := 1, user_id := 5, name := "sedan" }] 23).snd.countP
        (fun t => t.reminder_id == 1))
      = (if ((0 : Int) + 30 - 23) ∈ parse_notification_days "7,3,1" then 1 else 0) ∧
    (((0 : Int) + 30 - 23) ∈ parse_notification_days "7,3,1" →
      ({ user_id := 5, car_name := "sedan", reminder_name := "insurance",
         days_left := (0 : Int) + 30 - 23, reminder_id := 1 } : TimeNotification)
        ∈ (check_time_based_notifications
            [{ reminder_id := 1, car_id := 1, name := "insurance", type := "time",
               interval_days := some 30, last_reset_date := some 0,
               notification_schedule := some "7,3,1" }]
            [{ car_id := 1, user_id := 5, name := "sedan" }] 23).snd) :=
  time_notification_iff_member
    [{ reminder_id := 1, car_id := 1, name := "insurance", type := "time",
       interval_days := some 30, last_reset_date := some 0,
       notification_schedule := some "7,3,1" }]
    [{ car_id := 1, user_id := 5, name := "sedan" }] 23
    { reminder_id := 1, car_id := 1, name := "insurance", type := "time",
      interval_days := some 30, last_reset_date := some 0,
      notification_schedule := some "7,3,1" }
    { car_id := 1, user_id := 5, name := "sedan" } 0 30 "7,3,1"
    (by decide) (by decide) (by decide) rfl rfl rfl (by decide)

end CarTracker
